import Mathlib

/-!
Verification of the qcmanager orchestration core: a shallow embedding of
`src/qcmanager/__init__.py` (run_single_procedure),
`src/qcmanager/session.py` (Session, detect_procedure_interface,
save_session, load_yaml) and
`src/qcmanager/procedures/_procedure_base.py` (ProcedureBase.run_with,
open_text_file, acquire_hgcroc), together with theorems settling the
spec claims about them.

Modules `yaml_format`, `utils`, `hw` and `procedures._parsing` of the
repository are not part of the given sources; where a claim depends on
them they are modelled from the spec, and each such definition says so
in its doc comment.
-/

namespace QCM

/-! ## POSIX-style paths, modelling the os.path functions used by the code -/

/-- A file-system path: an absolute flag plus the list of components.
Mirrors the plain slash-separated strings the Python code passes to the
os.path helpers. -/
structure FPath where
  absolute : Bool
  comps : List String
deriving DecidableEq, Repr

/-- Model of os.path.join for two operands: the second path wins when it
is absolute, otherwise components are concatenated. -/
def pjoin (a b : FPath) : FPath :=
  if b.absolute then b else ⟨a.absolute, a.comps ++ b.comps⟩

/-- Model of os.path.dirname: drop the final component. -/
def pdirname (p : FPath) : FPath :=
  ⟨p.absolute, p.comps.dropLast⟩

/-- Model of os.path.abspath restricted to already-clean paths: resolve a
relative path against the current working directory (given as absolute
components). -/
def pabs (cwd : List String) (p : FPath) : List String :=
  if p.absolute then p.comps else cwd ++ p.comps

/-- Length of the longest common prefix of two component lists, as used
by the os.path.relpath algorithm. -/
def commonLen : List String → List String → Nat
  | a :: as, b :: bs => if a = b then commonLen as bs + 1 else 0
  | _, _ => 0

/-- Model of os.path.relpath path start: make both absolute against the
working directory, strip the common leading components, and climb out of
the remainder of start with parent-directory components. -/
def prelpath (cwd : List String) (path start : FPath) : FPath :=
  let p := pabs cwd path
  let s := pabs cwd start
  let k := commonLen p s
  let comps := List.replicate (s.length - k) ".." ++ p.drop k
  if comps = [] then ⟨false, ["."]⟩ else ⟨false, comps⟩

/-- Resolve a relative path from a base directory (absolute components),
collapsing parent-directory components; this is where a reader of the
ledger would look for the artifact. -/
def resolveFrom (base : List String) (p : FPath) : List String :=
  if p.absolute then resolveStep p.comps [] else resolveStep (base ++ p.comps) []
where
  /-- Left fold resolving one component at a time, popping on parent. -/
  resolveStep : List String → List String → List String
    | [], acc => acc
    | c :: cs, acc =>
        if c = ".." then resolveStep cs acc.dropLast else resolveStep cs (acc ++ [c])

/-! ## Data model

The classes DataEntry, ProcedureResult and StatusCode live in
`qcmanager.yaml_format`, which is not among the given sources; the
structures below are modelled from the spec (sections 3 and 6): an
Artifact Reference is a path plus description, a Result Record carries
name, the two timestamps, the input mapping, the status pair and the
ordered artifact list. Timestamps are modelled as natural numbers read
from a monotone clock. -/

/-- Modelled from the spec: the Artifact Reference (DataEntry) of
`qcmanager.yaml_format`, which is not under the given sources. -/
structure DataEntry where
  path : FPath
  desc : String := ""
deriving DecidableEq, Repr

/-- Modelled from the spec: the Result Record (ProcedureResult) of
`qcmanager.yaml_format`, which is not under the given sources. Field
names follow the Python dataclass. -/
structure ProcedureResult where
  name : String
  start_time : Nat
  end_time : Nat
  input : List (String × String)
  status_code : Nat × String
  data_files : List DataEntry
deriving DecidableEq, Repr

/-- Modelled from the spec: the discrete status codes of
`qcmanager.yaml_format.StatusCode`; the concrete numbers are irrelevant,
only their distinctness matters. -/
def StatusCode.OK : Nat := 0

/-- Modelled from the spec: the cancellation status code. -/
def StatusCode.SIG_INTERUPT : Nat := 1

/-- Modelled from the spec: the unexpected-failure status code. -/
def StatusCode.UNKNOWN_ERROR : Nat := 2

/-! ## Logging

The code logs through `logging.getLogger("QACProcedure." + name)` with
severity levels; a log record is modelled as the logger name, the
numeric level and the message, plus the optional error-trace extra
payload passed by `logerror` in run_with. -/

/-- A structured log record as emitted through the logging calls of
ProcedureBase. -/
structure LogEntry where
  logger : String
  level : Nat
  msg : String
  error_trace : Option String := none
deriving DecidableEq, Repr

/-- Python logging severity INFO. -/
def logINFO : Nat := 20

/-- Python logging severity WARNING. -/
def logWARNING : Nat := 30

/-- Python logging severity ERROR. -/
def logERROR : Nat := 40

/-! ## The Lifecycle Wrapper: ProcedureBase.run_with

The work method `self.run(*args)` can end in three ways: a normal
return, a KeyboardInterrupt, or any other exception. During its run it
may mutate `self.result` through the documented channels (setting the
status pair, appending data files); this is captured by a WorkOutcome
value. The elapsed field is the clock advance during the work, so that
the end-of-run timestamp is start + elapsed. -/

/-- How the work method exits. -/
inductive WorkKind where
  | normal
  | interrupt
  | raised (msg : String) (trace : String)
deriving DecidableEq, Repr

/-- Observable behaviour of one invocation of the work method: the exit
kind, the status pair and artifact list that `self.result` holds at the
exit point, and the clock advance. -/
structure WorkOutcome where
  kind : WorkKind
  status : Nat × String
  files : List DataEntry
  elapsed : Nat
deriving Repr

/-- The `ProcedureResult` created by `ProcedureBase.__post_init__`:
both timestamps read the clock at construction, status defaults to
`(0, "")`, no data files. -/
def initResult (nm : String) (inp : List (String × String)) (t0 : Nat) :
    ProcedureResult :=
  { name := nm
    start_time := t0
    end_time := t0
    input := inp
    status_code := (0, "")
    data_files := [] }

/-- The "completed" log line emitted in the finally block of run_with. -/
def completedLog (nm : String) : LogEntry :=
  ⟨"QACProcedure." ++ nm, logINFO, nm ++ " completed", none⟩

/-- Shallow embedding of `ProcedureBase.run_with`: run the work method,
absorb KeyboardInterrupt into the SIG_INTERUPT status and any other
exception into the UNKNOWN_ERROR status with the short description as
message and the full trace routed to the error log; stamp end_time and
log completion on every path. It is a total function: no failure of the
work method propagates to the caller. -/
def run_with (init : ProcedureResult) (w : WorkOutcome) (endTime : Nat) :
    ProcedureResult × List LogEntry :=
  match w.kind with
  | .normal =>
      ({ init with status_code := w.status, data_files := w.files,
                   end_time := endTime },
       [completedLog init.name])
  | .interrupt =>
      ({ init with status_code := (StatusCode.SIG_INTERUPT, ""),
                   data_files := w.files, end_time := endTime },
       [⟨"QACProcedure." ++ init.name, logWARNING,
         "User interupt signal received", none⟩,
        completedLog init.name])
  | .raised msg trace =>
      ({ init with status_code := (StatusCode.UNKNOWN_ERROR, msg),
                   data_files := w.files, end_time := endTime },
       [⟨"QACProcedure." ++ init.name, logERROR,
         "Unknown error! [" ++ msg ++ "]", some trace⟩,
        completedLog init.name])

/-! ## Session and interface resolution (session.py) -/

/-- The declared type of a work-method parameter, as read from the
signature by inspect. The three recognised capability types are the
keys of the type map in detect_procedure_interface; every other
declared type is represented by its type name. -/
inductive PyType where
  | hwIterable
  | tbController
  | listProcedureResult
  | other (tyname : String)
deriving DecidableEq, Repr

/-- A Python value reachable as an attribute of the Session object or
supplied by the capability map: the iterate helper (a bound method), the
hardware-controller reference held in tb_controller (None allowed), the
results list, strings, paths, bound methods, and opaque extra values. -/
inductive AttrVal where
  | iterateFn
  | controller (ref : Option Nat)
  | results (rs : List ProcedureResult)
  | str (v : String)
  | path (p : FPath)
  | method (nm : String)
  | val (tag : String)
deriving DecidableEq, Repr

/-- Shallow embedding of session.Session: the persisted identity fields
and ledger, the ledger-file location, the hardware-controller reference,
and any further attributes a subclass may add (getattr reaches those
too). -/
structure Session where
  board_type : String
  board_id : String
  results : List ProcedureResult
  log_file : FPath
  tb_controller : Option Nat
  extra : List (String × AttrVal)
deriving DecidableEq, Repr

/-- Session.LOCAL_STORE, the results root directory. -/
def localStore : FPath := ⟨false, ["results"]⟩

/-- Embedding of the save_base property: LOCAL_STORE joined with
board_type.board_id. -/
def Session.save_base (s : Session) : FPath :=
  pjoin localStore ⟨false, [s.board_type ++ "." ++ s.board_id]⟩

/-- Embedding of Session.modify_save_path: join the requested name under
save_base (the directory-creation side effect is not modelled). -/
def Session.modify_save_path (s : Session) (path : String) : FPath :=
  pjoin s.save_base ⟨false, [path]⟩

/-- Model of the Python getattr on a Session object: the instance
attributes set in the constructor, the save_base property, the iterate
method and the other methods of the class, then any subclass-added
attribute; an unknown name yields none, which stands for
AttributeError. -/
def Session.getattrS (s : Session) (nm : String) : Option AttrVal :=
  if nm = "board_type" then some (.str s.board_type)
  else if nm = "board_id" then some (.str s.board_id)
  else if nm = "results" then some (.results s.results)
  else if nm = "log_file" then some (.path s.log_file)
  else if nm = "tb_controller" then some (.controller s.tb_controller)
  else if nm = "iterate" then some .iterateFn
  else if nm = "save_base" then some (.path s.save_base)
  else if nm = "modify_save_path" then some (.method nm)
  else if nm = "load_yaml" then some (.method nm)
  else if nm = "from_blank" then some (.method nm)
  else if nm = "save_session" then some (.method nm)
  else if nm = "detect_procedure_interface" then some (.method nm)
  else (s.extra.find? (fun kv => kv.1 = nm)).map (fun kv => kv.2)

/-- Embedding of the inner _get_interface of
Session.detect_procedure_interface: the three recognised capability
types are looked up in the type map, every other declared type falls
back to getattr by parameter name; a missing attribute is the
AttributeError carrying the attribute name. -/
def Session.getInterface (s : Session) (int_name : String) (int_type : PyType) :
    Except String AttrVal :=
  match int_type with
  | .hwIterable => .ok .iterateFn
  | .tbController => .ok (.controller s.tb_controller)
  | .listProcedureResult => .ok (.results s.results)
  | .other _ =>
      match s.getattrS int_name with
      | some v => .ok v
      | none => .error int_name

/-- Embedding of Session.detect_procedure_interface: walk the run-method
signature in declaration order, skip the self parameter, resolve each
remaining parameter with _get_interface; the first resolution failure
aborts the whole comprehension, as the raised AttributeError would. -/
def Session.detect_procedure_interface (s : Session) :
    List (String × PyType) → Except String (List AttrVal)
  | [] => .ok []
  | p :: rest =>
      if p.1 = "self" then s.detect_procedure_interface rest
      else
        match s.getInterface p.1 p.2 with
        | .error e => .error e
        | .ok v =>
            match s.detect_procedure_interface rest with
            | .error e => .error e
            | .ok vs => .ok (v :: vs)

/-- Resolution policy as the claim words it, for comparison with the
source-translated definition: the iteration-helper type maps to the
iterate helper of the session, the hardware-controller type maps to the
live hardware-controller reference held by the session and no other
object, the run-history type maps to the results list of the session,
and a parameter of any other declared type is resolved by its name as an
attribute of the Session. -/
def claimResolve (s : Session) (nm : String) (ty : PyType) : Except String AttrVal :=
  match ty with
  | .hwIterable => .ok .iterateFn
  | .tbController => .ok (.controller s.tb_controller)
  | .listProcedureResult => .ok (.results s.results)
  | .other _ =>
      match s.getattrS nm with
      | some v => .ok v
      | none => .error nm

/-! ## The file helpers of ProcedureBase -/

/-- Embedding of ProcedureBase.make_store_path: join under the store
directory of the run. -/
def make_store_path (store_base path : FPath) : FPath :=
  pjoin store_base path

/-- Outcome of one open_text_file call: the mutated result record, the
opened handle or the raised IO failure, and the files the call created
on disk. -/
structure OpenResult where
  result : ProcedureResult
  handle : Except String FPath
  created : List FPath
deriving Repr

/-- Shallow embedding of ProcedureBase.open_text_file: compute the full
path, append the DataEntry to the data_files of the record, then attempt
the open; the writable predicate says whether the open call succeeds.
The append is performed before the open is attempted, so the mutated
record survives an open failure while no file was created. -/
def open_text_file (store_base : FPath) (r : ProcedureResult) (path : FPath)
    (desc : String) (writable : FPath → Bool) : OpenResult :=
  let full_path := make_store_path store_base path
  let r2 := { r with data_files := r.data_files ++ [⟨full_path, desc⟩] }
  if writable full_path then ⟨r2, .ok full_path, [full_path]⟩
  else ⟨r2, .error "IOError", []⟩

/-! ## The acquisition sequencer: ProcedureBase.acquire_hgcroc

The hardware controller of `qcmanager.hw` is not among the given
sources; its observable surface (the daq and pull sockets with
configure, start, stop, the completion predicate, the cooperative sleep)
is modelled as a trace of events, and the completion predicate as a
function of the poll index. The while loop is given explicit fuel: a
result of none means the loop has not exited within that many polling
cycles. -/

/-- One observable action of the acquisition sequence. -/
inductive AcqEvent where
  | setDaqNEvents (v : String)
  | setPullOutputDir (d : String)
  | setPullRunType (v : String)
  | configurePull
  | configureDaq
  | startPull
  | startDaq
  | pollCheck
  | ctrlSleepMs (ms : Nat)
  | stopDaq
  | stopPull
  | moveFile (src dst : FPath)
  | procSleepMs (ms : Nat)
deriving DecidableEq, Repr

/-- The poll loop of acquire_hgcroc: check the completion flag, and
while it is false sleep 10 ms on the controller and check again. The
fuel bounds how many checks are attempted; none means the loop is still
running after that many checks. -/
def pollEvents (complete : Nat → Bool) : Nat → Nat → Option (List AcqEvent)
  | 0, _ => none
  | fuel + 1, i =>
      if complete i then some [.pollCheck]
      else
        match pollEvents complete fuel (i + 1) with
        | none => none
        | some es => some (.pollCheck :: .ctrlSleepMs 10 :: es)

/-- The scratch file the device writes and the sequencer relocates. -/
def scratchFile : FPath := ⟨true, ["tmp", "data_aquire0.raw"]⟩

/-- Shallow embedding of ProcedureBase.acquire_hgcroc as its event
trace plus the DataEntry it appends: event count into the daq-socket
configuration, scratch output location and run type into the pull-socket
configuration, configure pull then daq, start pull then daq, poll the
daq completion flag sleeping 10 ms between checks, stop daq then pull,
move the scratch file into the store path, sleep 100 ms, and register a
DataEntry holding the bare save_path. The desc argument is accepted and,
as in the source, not forwarded to the entry. -/
def acquire_hgcroc (complete : Nat → Bool) (fuel : Nat) (n_events : Nat)
    (store_base save_path : FPath) (_desc : String) :
    Option (List AcqEvent × DataEntry) :=
  match pollEvents complete fuel 0 with
  | none => none
  | some polls =>
      some
        ([.setDaqNEvents (toString n_events),
          .setPullOutputDir "/tmp",
          .setPullRunType "data_acquire",
          .configurePull, .configureDaq,
          .startPull, .startDaq] ++ polls ++
         [.stopDaq, .stopPull,
          .moveFile scratchFile (make_store_path store_base save_path),
          .procSleepMs 100],
         { path := save_path, desc := "" })

/-! ## The orchestrator: run_single_procedure (\_\_init\_\_.py) -/

/-- A procedure class as the orchestrator sees it: its type name, the
signature of its run method in declaration order (self included), the
constructed input fields, the observable outcome of the argument-parsing
phase, and the behaviour of the work method on the resolved arguments.
The parsing phase lives in procedures._parsing, which is not among the
given sources; modelled from the spec, its observable is either that all
per-field validators pass or that one raises, carrying the traceback of
that failure. -/
structure ProcClass where
  pname : String
  params : List (String × PyType)
  input : List (String × String)
  parseTrace : Option String
  work : List AttrVal → WorkOutcome

/-- The ledger structure save_session writes: the filtered dict of
board_type, board_id and results. -/
structure Ledger where
  board_type : String
  board_id : String
  results : List ProcedureResult
deriving DecidableEq, Repr

/-- Embedding of Session.save_session: serialize exactly the
board_type, board_id and results fields, overwriting the file. -/
def Session.save_session (s : Session) : Ledger :=
  ⟨s.board_type, s.board_id, s.results⟩

/-- Modelled from the spec: the rendering of traceback.format_exc(),
whose utils module is not among the given sources; what matters is that
it carries the full diagnostic trace, marked by the standard Traceback
header, around the short description of the failure. -/
def formatTraceback (e : String) : String :=
  "Traceback (most recent call last): " ++ e

/-- Modelled from the spec: utils.timestampf, not among the given
sources; a textual timestamp making the run directory name unique. -/
def timestampf (t : Nat) : String :=
  "t" ++ toString t

/-- Everything observable from one run_single_procedure call: the
session as mutated, the ledger written by the unconditional
save_session, the log records emitted, and whether the work method was
actually invoked. -/
structure RunOutput where
  session : Session
  persisted : Ledger
  logs : List LogEntry
  workInvoked : Bool

/-- Shallow embedding of run_single_procedure: create the result record
and append it to the session ledger, then inside the try block run the
argument parsers, resolve the work-method interface on the session as it
now stands, call run_with, and rewrite each produced artifact path to be
relative to the directory of the ledger file; any exception raised in
the try block (a parser failure, the AttributeError of interface
resolution) is caught and folded into the status of the last record as
UNKNOWN_ERROR with the full traceback text; the finally block always
writes the ledger. The function is total: no failure inside the try
block escapes to the caller. -/
def run_single_procedure (s : Session) (p : ProcClass) (cwd : List String)
    (t0 : Nat) : RunOutput :=
  match p.parseTrace with
  | some tr =>
      ⟨{ s with results := s.results ++
          [{ initResult p.pname p.input t0 with
             status_code := (StatusCode.UNKNOWN_ERROR, formatTraceback tr) }] },
       Session.save_session
         { s with results := s.results ++
            [{ initResult p.pname p.input t0 with
               status_code := (StatusCode.UNKNOWN_ERROR, formatTraceback tr) }] },
       [], false⟩
  | none =>
      match Session.detect_procedure_interface
          { s with results := s.results ++ [initResult p.pname p.input t0] }
          p.params with
      | .error e =>
          ⟨{ s with results := s.results ++
              [{ initResult p.pname p.input t0 with
                 status_code := (StatusCode.UNKNOWN_ERROR,
                   formatTraceback ("AttributeError: " ++ e)) }] },
           Session.save_session
             { s with results := s.results ++
                [{ initResult p.pname p.input t0 with
                   status_code := (StatusCode.UNKNOWN_ERROR,
                     formatTraceback ("AttributeError: " ++ e)) }] },
           [], false⟩
      | .ok args =>
          ⟨{ s with results := s.results ++
              [{ (run_with (initResult p.pname p.input t0) (p.work args)
                    (t0 + (p.work args).elapsed)).1 with
                 data_files :=
                   (run_with (initResult p.pname p.input t0) (p.work args)
                     (t0 + (p.work args).elapsed)).1.data_files.map (fun f =>
                       { f with
                         path := prelpath cwd f.path (pdirname s.log_file) }) }] },
           Session.save_session
             { s with results := s.results ++
                [{ (run_with (initResult p.pname p.input t0) (p.work args)
                      (t0 + (p.work args).elapsed)).1 with
                   data_files :=
                     (run_with (initResult p.pname p.input t0) (p.work args)
                       (t0 + (p.work args).elapsed)).1.data_files.map (fun f =>
                         { f with
                           path := prelpath cwd f.path (pdirname s.log_file) }) }] },
           (run_with (initResult p.pname p.input t0) (p.work args)
             (t0 + (p.work args).elapsed)).2,
           true⟩

/-! ## Ledger serialization (yaml_format)

The yaml_format module with to_yaml and ProcedureResult.from_dict is not
among the given sources; the document layer below is modelled from the
spec: the ledger file is a structured document with the keys board_type,
board_id and results, each record serializing name, start_time,
end_time, input, status and data_files, each record reconstructed from
its stored fields on load. -/

/-- A structured document value, standing for the YAML layer. -/
inductive YVal where
  | s (v : String)
  | n (v : Nat)
  | b (v : Bool)
  | arr (vs : List YVal)
  | dict (kvs : List (String × YVal))

/-- Look a key up in a document mapping. -/
def ylookup (kvs : List (String × YVal)) (k : String) : Option YVal :=
  (kvs.find? (fun kv => kv.1 = k)).map (fun kv => kv.2)

/-- Read a document value as a string. -/
def YVal.asStr : YVal → Option String
  | .s v => some v
  | _ => none

/-- Read a document value as a natural number. -/
def YVal.asNat : YVal → Option Nat
  | .n v => some v
  | _ => none

/-- Read a document value as a boolean. -/
def YVal.asBool : YVal → Option Bool
  | .b v => some v
  | _ => none

/-- Decode a list of document values elementwise, failing on the first
malformed element. -/
def decodeList {α : Type} (dec : YVal → Option α) : List YVal → Option (List α)
  | [] => some []
  | v :: vs =>
      match dec v with
      | none => none
      | some a =>
          match decodeList dec vs with
          | none => none
          | some as => some (a :: as)

/-- Modelled from the spec: a path as stored in the document. -/
def encodeFPath (p : FPath) : YVal :=
  .dict [("absolute", .b p.absolute), ("comps", .arr (p.comps.map .s))]

/-- Decode a stored path. -/
def decodeFPath (v : YVal) : Option FPath :=
  match v with
  | .dict kvs =>
      match ylookup kvs "absolute" with
      | none => none
      | some av =>
          match av.asBool with
          | none => none
          | some ab =>
              match ylookup kvs "comps" with
              | none => none
              | some cv =>
                  match cv with
                  | .arr cs =>
                      match decodeList YVal.asStr cs with
                      | none => none
                      | some comps => some ⟨ab, comps⟩
                  | _ => none
  | _ => none

/-- Modelled from the spec: an Artifact Reference as stored in the
document, with at least path and desc. -/
def encodeEntry (e : DataEntry) : YVal :=
  .dict [("path", encodeFPath e.path), ("desc", .s e.desc)]

/-- Decode a stored Artifact Reference. -/
def decodeEntry (v : YVal) : Option DataEntry :=
  match v with
  | .dict kvs =>
      match ylookup kvs "path" with
      | none => none
      | some pv =>
          match decodeFPath pv with
          | none => none
          | some p =>
              match ylookup kvs "desc" with
              | none => none
              | some dv =>
                  match dv.asStr with
                  | none => none
                  | some d => some ⟨p, d⟩
  | _ => none

/-- Decode one input pair. -/
def decodePair (v : YVal) : Option (String × String) :=
  match v with
  | .arr [.s k, .s w] => some (k, w)
  | _ => none

/-- Modelled from the spec: a Result Record as stored in the document,
serializing name, start_time, end_time, input, status and data_files. -/
def encodeResult (r : ProcedureResult) : YVal :=
  .dict [("name", .s r.name),
         ("start_time", .n r.start_time),
         ("end_time", .n r.end_time),
         ("input", .arr (r.input.map (fun kv => .arr [.s kv.1, .s kv.2]))),
         ("status", .arr [.n r.status_code.1, .s r.status_code.2]),
         ("data_files", .arr (r.data_files.map encodeEntry))]

/-- Modelled from the spec: ProcedureResult.from_dict of yaml_format,
reconstructing a Result Record from its stored fields. -/
def ProcedureResult.from_dict (v : YVal) : Option ProcedureResult :=
  match v with
  | .dict kvs =>
      match ylookup kvs "name" with
      | none => none
      | some nv =>
          match nv.asStr with
          | none => none
          | some nm =>
              match ylookup kvs "start_time" with
              | none => none
              | some sv =>
                  match sv.asNat with
                  | none => none
                  | some st =>
                      match ylookup kvs "end_time" with
                      | none => none
                      | some ev =>
                          match ev.asNat with
                          | none => none
                          | some et =>
                              match ylookup kvs "input" with
                              | some (.arr ivs) =>
                                  match decodeList decodePair ivs with
                                  | none => none
                                  | some inp =>
                                      match ylookup kvs "status" with
                                      | some (.arr [.n c, .s m]) =>
                                          match ylookup kvs "data_files" with
                                          | some (.arr dvs) =>
                                              match decodeList decodeEntry dvs with
                                              | none => none
                                              | some dfs =>
                                                  some ⟨nm, st, et, inp, (c, m), dfs⟩
                                          | _ => none
                                      | _ => none
                              | _ => none
  | _ => none

/-- Modelled from the spec: utils.to_yaml applied to the filtered dict
save_session builds, rendering the ledger as one document. -/
def encodeLedger (l : Ledger) : YVal :=
  .dict [("board_type", .s l.board_type),
         ("board_id", .s l.board_id),
         ("results", .arr (l.results.map encodeResult))]

/-- Shallow embedding of Session.load_yaml: read the stored document,
set board_type and board_id from its fields, rebuild each Result Record
with from_dict, and record the file path as the log_file; the other
session fields are untouched. A malformed document yields none, standing
for the raised error. -/
def Session.load_yaml (self : Session) (doc : YVal) (filepath : FPath) :
    Option Session :=
  match doc with
  | .dict kvs =>
      match ylookup kvs "board_type" with
      | none => none
      | some btv =>
          match btv.asStr with
          | none => none
          | some bt =>
              match ylookup kvs "board_id" with
              | none => none
              | some biv =>
                  match biv.asStr with
                  | none => none
                  | some bi =>
                      match ylookup kvs "results" with
                      | some (.arr rvs) =>
                          match decodeList ProcedureResult.from_dict rvs with
                          | none => none
                          | some rs =>
                              some { self with
                                     board_type := bt, board_id := bi,
                                     results := rs, log_file := filepath }
                      | _ => none
  | _ => none

/-- Resolution of a full run signature as the claim words it: the self
parameter is skipped, each remaining parameter resolves through
claimResolve, the supplied arguments come back in parameter declaration
order, and a Procedure declaring no parameters gets the empty argument
list. -/
def claimResolveAll (s : Session) (params : List (String × PyType)) :
    Except String (List AttrVal) :=
  (params.filter (fun p => p.1 ≠ "self")).mapM (fun p => claimResolve s p.1 p.2)

/-! ## Concrete sample inputs used by witnesses and counterexamples -/

/-- A session for board TB3.042 with an empty ledger, the ledger file at
its from_blank location, and a live controller reference. -/
def sampleSession : Session :=
  ⟨"TB3", "042", [], ⟨false, ["results", "TB3.042", "session.yaml"]⟩, some 7, []⟩

/-- A no-operation procedure taking no work-method parameters beyond
self, whose work returns normally after four clock ticks. -/
def noopProc : ProcClass :=
  ⟨"NoOp", [("self", .other "NoOp")], [], none,
   fun _ => ⟨.normal, (0, ""), [], 4⟩⟩

/-- A procedure whose run method declares a parameter named widget of a
type that is not a recognised capability and is not a Session
attribute. -/
def badProc : ProcClass :=
  ⟨"BadProc", [("self", .other "BadProc"), ("widget", .other "Widget")], [], none,
   fun _ => ⟨.normal, (0, ""), [], 4⟩⟩

/-- A procedure whose argument-parsing phase raises with the given
failure. -/
def parseFailProc : ProcClass :=
  ⟨"ParseFail", [("self", .other "ParseFail")], [("channel", "99")],
   some "ValueError: bad channel", fun _ => ⟨.normal, (0, ""), [], 4⟩⟩

/-- The store directory run_single_procedure would allocate for an
acquisition procedure started at clock 10 on the sample session. -/
def acqStoreBase : FPath :=
  sampleSession.modify_save_path ("AcqProc_" ++ timestampf 10)

/-- A procedure whose work performs one hardware acquisition and
registers the entry exactly as acquire_hgcroc does: the bare save path,
while the file itself was moved under the store directory. -/
def acqProc : ProcClass :=
  ⟨"AcqProc", [("self", .other "AcqProc")], [], none,
   fun _ => ⟨.normal, (0, ""), [⟨⟨false, ["data.raw"]⟩, ""⟩], 3⟩⟩

/-- A completion predicate that becomes true on the third poll. -/
def acqComplete (i : Nat) : Bool := decide (2 ≤ i)

/-! ## Theorems -/

/-- The record run_with returns keeps the name of the record built at
construction, whatever the work method did. -/
theorem run_with_name (init : ProcedureResult) (w : WorkOutcome) (e : Nat) :
    (run_with init w e).1.name = init.name := by
  rcases w with ⟨k, st, fl, el⟩
  cases k <;> rfl

/-- The record run_with returns keeps the construction-time
start_time. -/
theorem run_with_start (init : ProcedureResult) (w : WorkOutcome) (e : Nat) :
    (run_with init w e).1.start_time = init.start_time := by
  rcases w with ⟨k, st, fl, el⟩
  cases k <;> rfl

/-- The finally block of run_with stamps end_time with the supplied
end-of-run clock on every exit path. -/
theorem run_with_end (init : ProcedureResult) (w : WorkOutcome) (e : Nat) :
    (run_with init w e).1.end_time = e := by
  rcases w with ⟨k, st, fl, el⟩
  cases k <;> rfl

/-- C2: run_with resolves the status of the returned record by the
priority policy: a normal return keeps exactly the status the work
method set; an observed KeyboardInterrupt gives the SIG_INTERUPT code
with empty message; any other exception gives the UNKNOWN_ERROR code
with the textual description of the failure as the message, and the
full diagnostic trace is routed to an error-severity log record. -/
theorem c2_status_policy (init : ProcedureResult) (st : Nat × String)
    (files : List DataEntry) (el endT : Nat) (m trace : String) :
    (run_with init ⟨.normal, st, files, el⟩ endT).1.status_code = st ∧
    (run_with init ⟨.interrupt, st, files, el⟩ endT).1.status_code
      = (StatusCode.SIG_INTERUPT, "") ∧
    (run_with init ⟨.raised m trace, st, files, el⟩ endT).1.status_code
      = (StatusCode.UNKNOWN_ERROR, m) ∧
    (⟨"QACProcedure." ++ init.name, logERROR, "Unknown error! [" ++ m ++ "]",
        some trace⟩ : LogEntry)
      ∈ (run_with init ⟨.raised m trace, st, files, el⟩ endT).2 := by
  refine ⟨rfl, rfl, rfl, ?_⟩
  simp [run_with]

/-- C10: open_text_file appends the DataEntry to data_files before the
open is attempted, so the registration survives an open failure: for an
unwritable full path the returned record carries the new entry, the
call raises instead of returning a handle, and no file was created. The
final conjunct shows the append happens regardless of whether the open
succeeds. -/
theorem c10_register_before_open (store_base : FPath) (r : ProcedureResult)
    (path : FPath) (desc : String) (writable : FPath → Bool)
    (h : writable (make_store_path store_base path) = false) :
    (open_text_file store_base r path desc writable).result.data_files
      = r.data_files ++ [⟨make_store_path store_base path, desc⟩] ∧
    (open_text_file store_base r path desc writable).handle = .error "IOError" ∧
    (open_text_file store_base r path desc writable).created = [] ∧
    ∀ wb : FPath → Bool,
      (open_text_file store_base r path desc wb).result.data_files
        = r.data_files ++ [⟨make_store_path store_base path, desc⟩] := by
  refine ⟨?_, ?_, ?_, ?_⟩
  · simp [open_text_file, h]
  · simp [open_text_file, h]
  · simp [open_text_file, h]
  · intro wb
    by_cases hw : wb (make_store_path store_base path) = true
    · simp [open_text_file, hw]
    · simp [open_text_file, hw]

/-- Witness for C10 at a concrete unwritable path. -/
theorem c10_witness :
    (fun _ : FPath => false)
        (make_store_path ⟨false, ["results", "TB3.042", "P_t0"]⟩
          ⟨false, ["out.txt"]⟩) = false ∧
    (open_text_file ⟨false, ["results", "TB3.042", "P_t0"]⟩
        (initResult "P" [] 0) ⟨false, ["out.txt"]⟩ "log file"
        (fun _ => false)).result.data_files
      = (initResult "P" [] 0).data_files ++
        [⟨make_store_path ⟨false, ["results", "TB3.042", "P_t0"]⟩
            ⟨false, ["out.txt"]⟩, "log file"⟩] ∧
    (open_text_file ⟨false, ["results", "TB3.042", "P_t0"]⟩
        (initResult "P" [] 0) ⟨false, ["out.txt"]⟩ "log file"
        (fun _ => false)).handle = .error "IOError" := by
  refine ⟨rfl, ?_, ?_⟩
  · exact (c10_register_before_open _ _ _ _ _ rfl).1
  · exact (c10_register_before_open _ _ _ _ _ rfl).2.1

/-- The source-translated inner resolver agrees with the resolution
policy as the claim words it. -/
theorem getInterface_eq_claimResolve (s : Session) (nm : String) (ty : PyType) :
    s.getInterface nm ty = claimResolve s nm ty := by
  cases ty <;> rfl

/-- C5: detect_procedure_interface resolves the supplied arguments from
the declared parameter types exactly as the claim states: parameters
other than self are resolved in declaration order, the
iteration-helper type to the iterate helper, the hardware-controller
type to the live controller reference of the session and no other
object, the run-history type to the results list, any other declared
type by parameter name as a Session attribute; a Procedure declaring no
parameters gets the empty argument list. -/
theorem c5_interface_resolution (s : Session) (params : List (String × PyType)) :
    s.detect_procedure_interface params = claimResolveAll s params ∧
    s.detect_procedure_interface [] = .ok [] := by
  refine ⟨?_, rfl⟩
  induction params with
  | nil => rfl
  | cons p rest ih =>
      by_cases hp : p.1 = "self"
      · simpa [Session.detect_procedure_interface, claimResolveAll,
               List.filter_cons, hp] using ih
      · have hfilter : (p :: rest).filter (fun q => q.1 ≠ "self")
            = p :: rest.filter (fun q => q.1 ≠ "self") := by
          simp [List.filter_cons, hp]
        rw [claimResolveAll, hfilter, List.mapM_cons]
        simp only [Session.detect_procedure_interface, if_neg hp,
          getInterface_eq_claimResolve]
        rw [ih, claimResolveAll]
        cases hcr : claimResolve s p.1 p.2 with
        | error e => simp [hcr, Bind.bind, Except.bind]
        | ok v =>
            cases hrest : (rest.filter (fun q => q.1 ≠ "self")).mapM
                (fun q => claimResolve s q.1 q.2) with
            | error e => simp [hcr, hrest, Bind.bind, Except.bind]
            | ok vs =>
                simp only [hcr, hrest, Bind.bind, Except.bind]
                rfl

/-- The output of run_single_procedure on the path where parsing passes
and the interface resolves: the appended record is the one run_with
returned, with artifact paths rewritten relative to the ledger
directory, and the finally block persists the session. -/
theorem run_single_ok (s : Session) (p : ProcClass) (cwd : List String)
    (t0 : Nat) (args : List AttrVal)
    (hp : p.parseTrace = none)
    (hd : Session.detect_procedure_interface
        { s with results := s.results ++ [initResult p.pname p.input t0] }
        p.params = .ok args) :
    run_single_procedure s p cwd t0
      = ⟨{ s with results := s.results ++
            [{ (run_with (initResult p.pname p.input t0) (p.work args)
                  (t0 + (p.work args).elapsed)).1 with
               data_files :=
                 (run_with (initResult p.pname p.input t0) (p.work args)
                   (t0 + (p.work args).elapsed)).1.data_files.map (fun f =>
                     { f with
                       path := prelpath cwd f.path (pdirname s.log_file) }) }] },
         { board_type := s.board_type, board_id := s.board_id,
           results := s.results ++
            [{ (run_with (initResult p.pname p.input t0) (p.work args)
                  (t0 + (p.work args).elapsed)).1 with
               data_files :=
                 (run_with (initResult p.pname p.input t0) (p.work args)
                   (t0 + (p.work args).elapsed)).1.data_files.map (fun f =>
                     { f with
                       path := prelpath cwd f.path (pdirname s.log_file) }) }] },
         (run_with (initResult p.pname p.input t0) (p.work args)
           (t0 + (p.work args).elapsed)).2,
         true⟩ := by
  unfold run_single_procedure
  rw [hp, hd]
  rfl

/-- C1: when the setup phase passes, run_single_procedure registers
exactly one Result Record for the run, for every behaviour of the work
method (the work outcome is universally quantified, covering normal
return, KeyboardInterrupt and any other exception): the session ledger
grows by exactly that record, the unconditionally written ledger file
holds it, the record is the one run_with returned with its status as
resolved by run_with and end_time stamped at start plus the elapsed
time, hence at least start_time. run_single_procedure and run_with are
total functions of the work outcome, so no failure of the work method
propagates to the caller. -/
theorem c1_one_record_per_run (s : Session) (p : ProcClass) (cwd : List String)
    (t0 : Nat) (args : List AttrVal)
    (hp : p.parseTrace = none)
    (hd : Session.detect_procedure_interface
        { s with results := s.results ++ [initResult p.pname p.input t0] }
        p.params = .ok args) :
    ∃ r : ProcedureResult,
      (run_single_procedure s p cwd t0).session.results = s.results ++ [r] ∧
      (run_single_procedure s p cwd t0).persisted.results = s.results ++ [r] ∧
      r.name = p.pname ∧
      r.start_time = t0 ∧
      r.end_time = t0 + (p.work args).elapsed ∧
      r.start_time ≤ r.end_time ∧
      r.status_code
        = (run_with (initResult p.pname p.input t0) (p.work args)
            (t0 + (p.work args).elapsed)).1.status_code ∧
      (run_single_procedure s p cwd t0).workInvoked = true := by
  rw [run_single_ok s p cwd t0 args hp hd]
  refine ⟨_, rfl, rfl, run_with_name _ _ _, run_with_start _ _ _,
    run_with_end _ _ _, ?_, rfl, rfl⟩
  show (run_with (initResult p.pname p.input t0) (p.work args)
          (t0 + (p.work args).elapsed)).1.start_time
      ≤ (run_with (initResult p.pname p.input t0) (p.work args)
          (t0 + (p.work args).elapsed)).1.end_time
  rw [run_with_start, run_with_end]
  exact Nat.le_add_right t0 (p.work args).elapsed

/-- Witness for C1: the no-op procedure on the sample session. -/
theorem c1_witness :
    noopProc.parseTrace = none ∧
    Session.detect_procedure_interface
      { sampleSession with
        results := sampleSession.results
          ++ [initResult noopProc.pname noopProc.input 10] }
      noopProc.params = .ok [] ∧
    ∃ r : ProcedureResult,
      (run_single_procedure sampleSession noopProc ["home"] 10).session.results
        = sampleSession.results ++ [r] ∧
      (run_single_procedure sampleSession noopProc ["home"] 10).persisted.results
        = sampleSession.results ++ [r] ∧
      r.name = noopProc.pname ∧
      r.start_time = 10 ∧
      r.end_time = 10 + (noopProc.work []).elapsed ∧
      r.start_time ≤ r.end_time ∧
      r.status_code
        = (run_with (initResult noopProc.pname noopProc.input 10) (noopProc.work [])
            (10 + (noopProc.work []).elapsed)).1.status_code ∧
      (run_single_procedure sampleSession noopProc ["home"] 10).workInvoked = true :=
  ⟨rfl, rfl, c1_one_record_per_run sampleSession noopProc ["home"] 10 [] rfl rfl⟩

/-- Counterexample to C3 as stated: on a procedure declaring the
unresolvable parameter widget, run_single_procedure returns normally
with the attribute-resolution error absorbed into the status of the
Result Record of the run (so it does not propagate out uncaught, and it
is recorded as a procedure outcome), while the work method indeed never
ran. -/
theorem c3_counterexample :
    (run_single_procedure sampleSession badProc ["home"] 10).workInvoked = false ∧
    (run_single_procedure sampleSession badProc ["home"] 10).session.results
      = [{ initResult "BadProc" [] 10 with
           status_code := (StatusCode.UNKNOWN_ERROR,
             formatTraceback ("AttributeError: " ++ "widget")) }] ∧
    (run_single_procedure sampleSession badProc ["home"] 10).persisted
      = { board_type := "TB3", board_id := "042",
          results := [{ initResult "BadProc" [] 10 with
            status_code := (StatusCode.UNKNOWN_ERROR,
              formatTraceback ("AttributeError: " ++ "widget")) }] } :=
  ⟨rfl, rfl, rfl⟩

/-- C3 as amended: a parameter whose type is not a recognised
capability and whose name is not a Session attribute makes resolution
fail before the work method executes, but the AttributeError does not
escape run_single_procedure: the broad except around the try block
absorbs it into the status of the Result Record of the run as
UNKNOWN_ERROR carrying the full traceback, and the ledger is still
persisted by the finally block. The work method is never invoked with a
missing dependency. -/
theorem c3_resolution_error_absorbed (s : Session) (p : ProcClass)
    (cwd : List String) (t0 : Nat) (e : String)
    (hp : p.parseTrace = none)
    (hd : Session.detect_procedure_interface
        { s with results := s.results ++ [initResult p.pname p.input t0] }
        p.params = .error e) :
    (run_single_procedure s p cwd t0).workInvoked = false ∧
    (run_single_procedure s p cwd t0).session.results
      = s.results ++ [{ initResult p.pname p.input t0 with
          status_code := (StatusCode.UNKNOWN_ERROR,
            formatTraceback ("AttributeError: " ++ e)) }] ∧
    (run_single_procedure s p cwd t0).persisted
      = (run_single_procedure s p cwd t0).session.save_session := by
  unfold run_single_procedure
  rw [hp, hd]
  exact ⟨rfl, rfl, rfl⟩

/-- Witness for the amended C3 on the widget-declaring procedure. -/
theorem c3_witness :
    badProc.parseTrace = none ∧
    Session.detect_procedure_interface
      { sampleSession with
        results := sampleSession.results
          ++ [initResult badProc.pname badProc.input 10] }
      badProc.params = .error "widget" ∧
    ((run_single_procedure sampleSession badProc ["home"] 10).workInvoked = false ∧
     (run_single_procedure sampleSession badProc ["home"] 10).session.results
       = sampleSession.results ++ [{ initResult badProc.pname badProc.input 10 with
           status_code := (StatusCode.UNKNOWN_ERROR,
             formatTraceback ("AttributeError: " ++ "widget")) }] ∧
     (run_single_procedure sampleSession badProc ["home"] 10).persisted
       = (run_single_procedure sampleSession badProc ["home"] 10).session.save_session) :=
  ⟨rfl, rfl,
   c3_resolution_error_absorbed sampleSession badProc ["home"] 10 "widget" rfl rfl⟩

/-- Counterexample to C4 as stated: when the argument-parsing phase of
run_single_procedure raises, the except branch stores the full
traceback text in the message field of the persisted record, so a
persisted status message does contain a full diagnostic trace. -/
theorem c4_counterexample :
    (run_single_procedure sampleSession parseFailProc ["home"] 10).persisted.results
      = [{ initResult "ParseFail" [("channel", "99")] 10 with
           status_code := (StatusCode.UNKNOWN_ERROR,
             formatTraceback "ValueError: bad channel") }] ∧
    ∃ pre, formatTraceback "ValueError: bad channel"
        = pre ++ "ValueError: bad channel" ∧ pre ≠ "" :=
  ⟨rfl, "Traceback (most recent call last): ", rfl, by decide⟩

/-- C4 as amended: a failure absorbed by run_with is persisted with the
short textual description alone as message, the full trace going only
to the error_trace payload of the error-severity log record; but an
exception caught at the orchestration level by run_single_procedure
(argument parsing, interface resolution) is persisted with the full
traceback text as its message. -/
theorem c4_message_policy (init : ProcedureResult) (st : Nat × String)
    (files : List DataEntry) (el endT : Nat) (m trace : String)
    (s : Session) (p : ProcClass) (cwd : List String) (t0 : Nat) (tr : String)
    (hp : p.parseTrace = some tr) :
    (run_with init ⟨.raised m trace, st, files, el⟩ endT).1.status_code.2 = m ∧
    (run_with init ⟨.raised m trace, st, files, el⟩ endT).2.map LogEntry.error_trace
      = [some trace, none] ∧
    (run_single_procedure s p cwd t0).persisted.results
      = s.results ++ [{ initResult p.pname p.input t0 with
          status_code := (StatusCode.UNKNOWN_ERROR, formatTraceback tr) }] := by
  refine ⟨rfl, rfl, ?_⟩
  unfold run_single_procedure
  rw [hp]
  rfl

/-- Witness for the amended C4 at concrete inputs. -/
theorem c4_witness :
    parseFailProc.parseTrace = some "ValueError: bad channel" ∧
    ((run_with (initResult "X" [] 0) ⟨.raised "boom" "tb", (0, ""), [], 1⟩ 5).1.status_code.2
        = "boom" ∧
     (run_with (initResult "X" [] 0) ⟨.raised "boom" "tb", (0, ""), [], 1⟩ 5).2.map
        LogEntry.error_trace = [some "tb", none] ∧
     (run_single_procedure sampleSession parseFailProc ["home"] 10).persisted.results
       = sampleSession.results
         ++ [{ initResult parseFailProc.pname parseFailProc.input 10 with
               status_code := (StatusCode.UNKNOWN_ERROR,
                 formatTraceback "ValueError: bad channel") }]) :=
  ⟨rfl,
   c4_message_policy (initResult "X" [] 0) (0, "") [] 1 5 "boom" "tb"
     sampleSession parseFailProc ["home"] 10 "ValueError: bad channel" rfl⟩

/-- Decoding a list of elementwise-encoded values restores the list. -/
theorem decodeList_map {α : Type} (enc : α → YVal) (dec : YVal → Option α)
    (h : ∀ a, dec (enc a) = some a) (l : List α) :
    decodeList dec (l.map enc) = some l := by
  induction l with
  | nil => rfl
  | cons a as ih => simp [decodeList, h, ih]

/-- Paths survive the document round trip. -/
theorem decodeFPath_encode (p : FPath) : decodeFPath (encodeFPath p) = some p := by
  rcases p with ⟨ab, comps⟩
  have h := decodeList_map YVal.s YVal.asStr (fun a => rfl) comps
  simp [encodeFPath, decodeFPath, ylookup, List.find?, h, YVal.asBool]

/-- Artifact References survive the document round trip. -/
theorem decodeEntry_encode (e : DataEntry) : decodeEntry (encodeEntry e) = some e := by
  rcases e with ⟨p, d⟩
  have h := decodeFPath_encode p
  simp [encodeEntry, decodeEntry, ylookup, List.find?, h, YVal.asStr]

/-- Result Records are reconstructed field for field by from_dict. -/
theorem from_dict_encode (r : ProcedureResult) :
    ProcedureResult.from_dict (encodeResult r) = some r := by
  rcases r with ⟨nm, st, et, inp, ⟨c, m⟩, dfs⟩
  have hinp := decodeList_map (fun kv => YVal.arr [.s kv.1, .s kv.2]) decodePair
    (fun a => by rcases a with ⟨k, w⟩; rfl) inp
  have hdfs := decodeList_map encodeEntry decodeEntry decodeEntry_encode dfs
  simp [encodeResult, ProcedureResult.from_dict, ylookup, List.find?, hinp, hdfs,
    YVal.asStr, YVal.asNat]

/-- C6: saving the ledger and reloading the written document
reconstructs the session: board_type and board_id equal the saved ones
and the results list is field-for-field equal to the in-memory Result
Records, in particular of the same length. -/
theorem c6_save_load_roundtrip (s self : Session) (fp : FPath) :
    Session.load_yaml self (encodeLedger s.save_session) fp
      = some { self with
               board_type := s.board_type
               board_id := s.board_id
               results := s.results
               log_file := fp } ∧
    (encodeLedger s.save_session) = encodeLedger ⟨s.board_type, s.board_id, s.results⟩ ∧
    (Session.save_session s).results.length = s.results.length := by
  refine ⟨?_, rfl, rfl⟩
  have h := decodeList_map encodeResult ProcedureResult.from_dict from_dict_encode
    s.results
  simp [Session.load_yaml, encodeLedger, Session.save_session, ylookup,
    List.find?, h, YVal.asStr]

/-- C7 evaluated on the code at a concrete acquisition: the sequencer
moves the produced file to the store path of the run but registers a
DataEntry holding the bare save path; the orchestrator then rewrites
that path as if it were relative to the working directory, and the
persisted path, resolved from the directory of the ledger file, no
longer points at the location the artifact was moved to. -/
theorem c7_path_rewrite_bug :
    (∃ tr, acquire_hgcroc acqComplete 10 100 acqStoreBase ⟨false, ["data.raw"]⟩ "raw"
        = some (tr, ⟨⟨false, ["data.raw"]⟩, ""⟩) ∧
      AcqEvent.moveFile scratchFile
        (make_store_path acqStoreBase ⟨false, ["data.raw"]⟩) ∈ tr) ∧
    (∃ r, (run_single_procedure sampleSession acqProc ["home", "user"] 10).persisted.results
        = [r] ∧
      r.data_files = [⟨⟨false, ["..", "..", "data.raw"]⟩, ""⟩]) ∧
    resolveFrom (pabs ["home", "user"] (pdirname sampleSession.log_file))
        ⟨false, ["..", "..", "data.raw"]⟩
      = ["home", "user", "data.raw"] ∧
    resolveFrom ["home", "user"] (make_store_path acqStoreBase ⟨false, ["data.raw"]⟩)
      = ["home", "user", "results", "TB3.042", "AcqProc_t10", "data.raw"] ∧
    (["home", "user", "data.raw"] : List String)
      ≠ ["home", "user", "results", "TB3.042", "AcqProc_t10", "data.raw"] := by
  refine ⟨⟨?_, ?_, ?_⟩, ⟨?_, ?_, ?_⟩, rfl, rfl, by decide⟩
  · exact [.setDaqNEvents "100", .setPullOutputDir "/tmp",
      .setPullRunType "data_acquire", .configurePull, .configureDaq,
      .startPull, .startDaq,
      .pollCheck, .ctrlSleepMs 10, .pollCheck, .ctrlSleepMs 10, .pollCheck,
      .stopDaq, .stopPull,
      .moveFile scratchFile (make_store_path acqStoreBase ⟨false, ["data.raw"]⟩),
      .procSleepMs 100]
  · rfl
  · decide
  · exact { name := "AcqProc", start_time := 10, end_time := 13, input := [],
            status_code := (0, ""),
            data_files := [⟨⟨false, ["..", "..", "data.raw"]⟩, ""⟩] }
  · rfl
  · rfl

/-- C8 evaluated on the code: the full event trace of an acquisition
whose completion flag becomes true on the third poll. The trace shows
the claimed sequencing (configuration writes, configure both, start
pull before daq, 10 ms polling, one stop per socket after completion,
entry registered last) except for the settle delay: the 100 ms sleep
comes after the file relocation, not before it. -/
theorem c8_sequence_trace :
    acquire_hgcroc acqComplete 10 500 acqStoreBase ⟨false, ["data.raw"]⟩ ""
      = some ([.setDaqNEvents "500", .setPullOutputDir "/tmp",
               .setPullRunType "data_acquire", .configurePull, .configureDaq,
               .startPull, .startDaq,
               .pollCheck, .ctrlSleepMs 10, .pollCheck, .ctrlSleepMs 10, .pollCheck,
               .stopDaq, .stopPull,
               .moveFile scratchFile
                 (make_store_path acqStoreBase ⟨false, ["data.raw"]⟩),
               .procSleepMs 100],
              ⟨⟨false, ["data.raw"]⟩, ""⟩) := by
  rfl

/-- With a completion predicate that never becomes true, the poll loop
never exits within any number of polling cycles. -/
theorem pollEvents_never_none (fuel i : Nat) :
    pollEvents (fun _ => false) fuel i = none := by
  induction fuel generalizing i with
  | zero => rfl
  | succ n ih => simp [pollEvents, ih]

/-- Counterexample to C9 as stated: on a controller whose completion
predicate never becomes true, acquire_hgcroc never returns within any
finite number of polling cycles, so no polling ceiling is reached and
no timeout failure is ever surfaced. -/
theorem c9_counterexample :
    ¬ ∃ fuel tr, acquire_hgcroc (fun _ => false) fuel 100 acqStoreBase
        ⟨false, ["data.raw"]⟩ "" = some tr := by
  rintro ⟨fuel, tr, h⟩
  simp [acquire_hgcroc, pollEvents_never_none] at h

/-- C9 as amended: the poll loop of acquire_hgcroc has no ceiling; for
every hardware controller whose completion predicate never becomes
true, the sequence has not completed after any number of polling
cycles, and no timeout failure is surfaced. -/
theorem c9_no_polling_ceiling (complete : Nat → Bool)
    (h : ∀ i, complete i = false) (fuel n : Nat) (sb sp : FPath) (d : String) :
    acquire_hgcroc complete fuel n sb sp d = none := by
  have hc : complete = fun _ => false := funext h
  subst hc
  unfold acquire_hgcroc
  rw [pollEvents_never_none]

/-- Witness for the amended C9 at a concrete never-completing
controller. -/
theorem c9_witness :
    acquire_hgcroc (fun _ => false) 50 100 acqStoreBase ⟨false, ["x.raw"]⟩ ""
      = none :=
  c9_no_polling_ceiling (fun _ => false) (fun _ => rfl) 50 100 acqStoreBase
    ⟨false, ["x.raw"]⟩ ""

end QCM
